import Mathlib

/-!
Verification of the chaosmonkey Go client library.

The Go sources are embedded shallowly: pure Go functions become Lean
functions; the process environment, the heap of `Config` objects, and the
remote HTTP server become explicit parameters; machine `int64` values become
`Int` (Go's `/` on `int64` is truncated division, `Int.tdiv`).
-/

namespace ChaosMonkey

/-- Models Go `strings.HasPrefix` on the character lists of the two strings:
`listStarts cs ds` is true when `ds` is a prefix of `cs`. -/
def listStarts : List Char → List Char → Bool
  | _, [] => true
  | [], _ :: _ => false
  | c :: cs, d :: ds => c = d && listStarts cs ds

/-- Go `strings.HasPrefix s p`. -/
def strHasPre (s p : String) : Bool :=
  listStarts s.data p.data

/-- Go constant `APIPath`. -/
def APIPath : String := "/simianarmy/api/v1/chaos"

/-- Go struct `APIRequest`: the JSON body sent to the API. -/
structure APIRequest where
  chaosType : String
  eventType : String
  groupName : String
  groupType : String
  region : String
deriving DecidableEq, Repr

/-- Go struct `APIResponse`: the JSON body returned by the API.
`eventTime` is an `int64` count of milliseconds since the Unix epoch. -/
structure APIResponse where
  chaosType : String
  eventID : String
  eventTime : Int
  eventType : String
  groupName : String
  groupType : String
  monkeyType : String
  region : String
  message : String
deriving DecidableEq, Repr

/-- Go struct `Event`. `triggeredAtSec` embeds the `time.Time` field
`TriggeredAt` as whole seconds since the Unix epoch in UTC: the Go code
builds it as `time.Unix(resp.EventTime/1000, 0).UTC()`, an instant with a
zero nanosecond part, so the seconds count determines it completely.
`strategy` embeds the string-backed `Strategy` type. -/
structure Event where
  instanceID : String
  autoScalingGroupName : String
  region : String
  strategy : String
  triggeredAtSec : Int
deriving DecidableEq, Repr

/-- Go method `(*APIResponse).ToEvent`. Go's `int64` division `EventTime/1000`
truncates toward zero, which is `Int.tdiv`. -/
def APIResponse.toEvent (resp : APIResponse) : Event :=
  { instanceID := resp.eventID
    autoScalingGroupName := resp.groupName
    region := resp.region
    strategy := resp.chaosType
    triggeredAtSec := Int.tdiv resp.eventTime 1000 }

/-- Spec-side timestamp rule, written from the spec's words for comparison
with `APIResponse.toEvent`: "the derived Event's instant equals
`floor(T/1000)` seconds since epoch". Floor division is `Int.fdiv`. -/
def specTriggeredAtSec (T : Int) : Int := Int.fdiv T 1000

/-- Go struct `Config`. The `*http.Client` handle is embedded as
`Option Unit`: `none` is the nil pointer, `some ()` any non-nil client. -/
structure Config where
  endpoint : String
  region : String
  username : String
  password : String
  userAgent : String
  httpClient : Option Unit
deriving DecidableEq, Repr

/-- The three environment variables read by `DefaultConfig`:
`CHAOSMONKEY_ENDPOINT`, `CHAOSMONKEY_USERNAME`, `CHAOSMONKEY_PASSWORD`.
Go's `os.Getenv` returns `""` for an unset variable, so each is a string. -/
structure Env where
  endpoint : String
  username : String
  password : String
deriving DecidableEq, Repr

/-- Go function `DefaultConfig`, with the process environment passed
explicitly. -/
def DefaultConfig (env : Env) : Config :=
  let c : Config :=
    { endpoint := "http://127.0.0.1:8080"
      region := ""
      username := ""
      password := ""
      userAgent := "chaosmonkey Go library"
      httpClient := some () }
  let c := if env.endpoint ≠ "" then { c with endpoint := env.endpoint } else c
  let c := if env.username ≠ "" then { c with username := env.username } else c
  if env.password ≠ "" then { c with password := env.password } else c

/-- First `if` of Go `NewClient`: default an empty endpoint. -/
def stepEndpointDefault (defConfig c : Config) : Config :=
  if c.endpoint = "" then { c with endpoint := defConfig.endpoint } else c

/-- Second `if` of Go `NewClient`: prefix the scheme when missing. -/
def stepEndpointScheme (c : Config) : Config :=
  if ¬ strHasPre c.endpoint "http" then { c with endpoint := "http://" ++ c.endpoint } else c

/-- Third `if` of Go `NewClient`: default an empty username. -/
def stepUsername (defConfig c : Config) : Config :=
  if c.username = "" then { c with username := defConfig.username } else c

/-- Fourth `if` of Go `NewClient`: default an empty password. -/
def stepPassword (defConfig c : Config) : Config :=
  if c.password = "" then { c with password := defConfig.password } else c

/-- Fifth `if` of Go `NewClient`: default an empty user agent. -/
def stepUserAgent (defConfig c : Config) : Config :=
  if c.userAgent = "" then { c with userAgent := defConfig.userAgent } else c

/-- Sixth `if` of Go `NewClient`: default a nil HTTP client. -/
def stepHTTPClient (defConfig c : Config) : Config :=
  if c.httpClient = none then { c with httpClient := defConfig.httpClient } else c

/-- The body of Go `NewClient` acting on the pointed-to `Config` value: the
six `if` statements, in source order, that default and normalize `c` against
`DefaultConfig`. `NewClient` below applies it through the heap. -/
def resolveConfig (env : Env) (c : Config) : Config :=
  let defConfig := DefaultConfig env
  stepHTTPClient defConfig (stepUserAgent defConfig (stepPassword defConfig
    (stepUsername defConfig (stepEndpointScheme (stepEndpointDefault defConfig c)))))

/-- A heap of `Config` objects, indexed by abstract addresses: `NewClient`
receives a `*Config` and mutates the object it points to. -/
def Heap : Type := Nat → Config

/-- Go struct `Client`: it stores the `*Config` pointer itself. -/
structure Client where
  config : Nat
deriving DecidableEq, Repr

/-- Go function `NewClient`, embedded over the heap: given the address `p` of
the caller's `Config`, it updates that object in place with the resolved
field values, and returns the client holding the pointer `p` and a nil
error (`none`). -/
def NewClient (env : Env) (h : Heap) (p : Nat) : Heap × Client × Option String :=
  (fun q => if q = p then resolveConfig env (h q) else h q, { config := p }, none)

/-- The HTTP request assembled inside Go `sendRequest` before
`HTTPClient.Do`: method, URL, optional JSON body, the Basic-Auth credentials
set by `req.SetBasicAuth` (or `none` when the header is not attached), and
the `User-Agent` header value. -/
structure HTTPRequest where
  method : String
  url : String
  body : Option APIRequest
  basicAuth : Option (String × String)
  userAgent : String
deriving DecidableEq, Repr

/-- The HTTP response as Go `sendRequest` observes it. `bodyAsError` is the
result of decoding the body as an `APIResponse` (what `decodeError` does);
`bodyAsOut` is the result of decoding the body as the caller's target shape
`α` (what the success path does). `none` means the JSON decode fails. -/
structure HTTPResponse (α : Type) where
  statusCode : Nat
  status : String
  bodyAsError : Option APIResponse
  bodyAsOut : Option α

/-- Go function `decodeError`: decode the body as an `APIResponse`; if that
succeeds and the message is non-empty, the error text is the message,
otherwise it is `"HTTP error: "` followed by the status line. -/
def decodeError {α : Type} (resp : HTTPResponse α) : String :=
  match resp.bodyAsError with
  | some r => if r.message ≠ "" then r.message else "HTTP error: " ++ resp.status
  | none => "HTTP error: " ++ resp.status

/-- The request-construction phase of Go `sendRequest`
(`http.NewRequest` + `SetBasicAuth` + the `User-Agent` header): Basic Auth is
attached exactly when both username and password are non-empty. -/
def buildRequest (cfg : Config) (method url : String) (body : Option APIRequest) :
    HTTPRequest :=
  { method := method
    url := url
    body := body
    basicAuth :=
      if cfg.username ≠ "" ∧ cfg.password ≠ "" then
        some (cfg.username, cfg.password)
      else none
    userAgent := cfg.userAgent }

/-- Go method `(*Client).sendRequest`, with the remote server embedded as a
function `remote` from the assembled request to the HTTP response it draws.
A non-200 status yields `decodeError`; on 200 the body is decoded into the
target shape, a decode failure surfacing as an error. -/
def sendRequest {α : Type} (cfg : Config) (method url : String)
    (body : Option APIRequest) (remote : HTTPRequest → HTTPResponse α) :
    Except String α :=
  let resp := remote (buildRequest cfg method url body)
  if resp.statusCode ≠ 200 then
    .error (decodeError resp)
  else
    match resp.bodyAsOut with
    | some a => .ok a
    | none => .error "json: cannot decode response body"

/-- The `APIRequest` literal marshalled inside Go `TriggerEvent`. -/
def triggerRequestBody (cfg : Config) (group strategy : String) : APIRequest :=
  { eventType := "CHAOS_TERMINATION"
    groupType := "ASG"
    groupName := group
    chaosType := strategy
    region := cfg.region }

/-- Go method `(*Client).TriggerEvent`: POST the marshalled request to
`endpoint ++ APIPath` and convert the decoded response with `ToEvent`. -/
def TriggerEvent (cfg : Config) (remote : HTTPRequest → HTTPResponse APIResponse)
    (group strategy : String) : Except String Event :=
  match sendRequest cfg "POST" (cfg.endpoint ++ APIPath)
      (some (triggerRequestBody cfg group strategy)) remote with
  | .error e => .error e
  | .ok resp => .ok resp.toEvent

/-- Go `time.Time` instants, embedded as whole seconds since the Unix epoch
(`sec`, what `Unix()` returns) plus the sub-second part in nanoseconds
(`nsec`, in `[0, 1e9)` for a well-formed instant). `Unix()` and the
derived values below do not depend on the location, so no zone is kept. -/
structure GoTime where
  sec : Int
  nsec : Nat
deriving DecidableEq, Repr

/-- Go `t.UTC().Unix()`: the whole-second count; `UTC()` does not change it. -/
def GoTime.unix (t : GoTime) : Int := t.sec

/-- Spec-side conversion, written from the spec's words for comparison with
`eventsRequest`/`EventsSince`: "`t` converted to milliseconds since the Unix
epoch", i.e. the full instant in integer milliseconds. -/
def specTimeToUnixMillis (t : GoTime) : Int := t.sec * 1000 + (t.nsec / 1000000 : Nat)

/-- The GET request assembled by Go `(*Client).events` for a given `since`
value: `fmt.Sprintf("%s%s?since=%d", endpoint, APIPath, since)` with no body. -/
def eventsRequest (cfg : Config) (since : Int) : HTTPRequest :=
  buildRequest cfg "GET" (cfg.endpoint ++ APIPath ++ "?since=" ++ toString since) none

/-- Go method `(*Client).events`: GET the history URL, decode a JSON array of
`APIResponse`, and convert each element with `ToEvent`. -/
def events (cfg : Config) (remote : HTTPRequest → HTTPResponse (List APIResponse))
    (since : Int) : Except String (List Event) :=
  match sendRequest cfg "GET" (cfg.endpoint ++ APIPath ++ "?since=" ++ toString since)
      none remote with
  | .error e => .error e
  | .ok rs => .ok (rs.map APIResponse.toEvent)

/-- Go method `(*Client).Events`: the full history, `events 0`. -/
def Events (cfg : Config) (remote : HTTPRequest → HTTPResponse (List APIResponse)) :
    Except String (List Event) :=
  events cfg remote 0

/-- Go method `(*Client).EventsSince`: `events (t.UTC().Unix() * 1000)`. -/
def EventsSince (cfg : Config) (remote : HTTPRequest → HTTPResponse (List APIResponse))
    (t : GoTime) : Except String (List Event) :=
  events cfg remote (t.unix * 1000)

end ChaosMonkey

namespace Aws

/-- The SimpleDB service as `DeleteSimpleDBDomain` observes it: the pages of
domain names that `ListDomainsPages` delivers to its callback (all pages are
visited, since the callback returns `!last`), the error `ListDomainsPages`
itself returns, and the error `DeleteDomain` returns (`none` is a nil
error). -/
structure SimpleDBService where
  pages : List (List String)
  listErr : Option String
  deleteErr : Option String

/-- A call made by `DeleteSimpleDBDomain` against the SimpleDB service, in
order of issue. -/
inductive SDBCall where
  | listDomains
  | deleteDomain (name : String)
deriving DecidableEq, Repr

/-- The `domainExists` flag after `ListDomainsPages` has run: the callback
sets it for every listed name equal to `domainName`. -/
def domainExistsIn (pages : List (List String)) (domainName : String) : Bool :=
  pages.foldl
    (fun acc page =>
      page.foldl (fun acc n => if n = domainName then true else acc) acc)
    false

/-- Go function `DeleteSimpleDBDomain` (package aws): list all domains, fail
with a descriptive error when `domainName` is absent, and only then call
`DeleteDomain`. Besides the Go result (`.ok ()` for a nil error), the
embedding returns the list of service calls issued, in order. -/
def DeleteSimpleDBDomain (svc : SimpleDBService) (domainName : String) :
    Except String Unit × List SDBCall :=
  match svc.listErr with
  | some e => (.error e, [.listDomains])
  | none =>
    if ¬ domainExistsIn svc.pages domainName then
      (.error ("SimpleDB domain \"" ++ domainName ++ "\" does not exist"),
        [.listDomains])
    else
      match svc.deleteErr with
      | some e => (.error e, [.listDomains, .deleteDomain domainName])
      | none => (.ok (), [.listDomains, .deleteDomain domainName])

end Aws

open ChaosMonkey Aws

/-! Concrete inputs used to instantiate the claim theorems. -/

/-- A wire response with a positive, non-multiple-of-1000 timestamp. -/
def c1Resp : APIResponse :=
  { chaosType := "ShutdownInstance", eventID := "i-0a1b2c3d", eventTime := 1234567
    eventType := "CHAOS_TERMINATION", groupName := "example-asg", groupType := "ASG"
    monkeyType := "CHAOS", region := "us-west-2", message := "" }

/-- A wire response with a negative, non-multiple-of-1000 timestamp. -/
def c1NegResp : APIResponse :=
  { chaosType := "ShutdownInstance", eventID := "i-0a1b2c3d", eventTime := -500
    eventType := "CHAOS_TERMINATION", groupName := "example-asg", groupType := "ASG"
    monkeyType := "CHAOS", region := "us-west-2", message := "" }

/-- A heap holding two distinguishable `Config` objects. -/
def c10Heap : Heap := fun n =>
  if n = 0 then { endpoint := "a", region := "", username := "", password := ""
                  userAgent := "", httpClient := none }
  else { endpoint := "b", region := "r", username := "u", password := "pw"
         userAgent := "ua", httpClient := some () }

/-- An entirely empty caller configuration. -/
def emptyConfig : Config :=
  { endpoint := "", region := "", username := "", password := "", userAgent := ""
    httpClient := none }

/-- A caller configuration whose endpoint already carries an `https` scheme. -/
def c6Cfg : Config :=
  { endpoint := "https://secure.example.com:8443", region := "", username := ""
    password := "", userAgent := "", httpClient := none }

/-- A configuration with both credentials set. -/
def c7Cfg : Config :=
  { endpoint := "http://h", region := "", username := "alice", password := "hunter2"
    userAgent := "ua", httpClient := some () }

/-- A resolved configuration without credentials. -/
def c2Cfg : Config :=
  { endpoint := "http://127.0.0.1:8080", region := "", username := "", password := ""
    userAgent := "chaosmonkey Go library", httpClient := some () }

/-- A wire response carrying only an error message. -/
def c2ErrResp : APIResponse :=
  { chaosType := "", eventID := "", eventTime := 0, eventType := "", groupName := ""
    groupType := "", monkeyType := "", region := "", message := "boom" }

/-- A remote answering every request with a 403 whose body decodes to
`c2ErrResp`. -/
def c2Remote : HTTPRequest → HTTPResponse APIResponse := fun _ =>
  { statusCode := 403, status := "403 Forbidden", bodyAsError := some c2ErrResp
    bodyAsOut := none }

/-- A resolved configuration for the trigger-event claim. -/
def c3Cfg : Config :=
  { endpoint := "http://127.0.0.1:8080", region := "", username := "", password := ""
    userAgent := "chaosmonkey Go library", httpClient := some () }

/-- A successful wire response whose `chaosType` differs from the strategy
the caller will request. -/
def c3Resp : APIResponse :=
  { chaosType := "BurnCpu", eventID := "i-9f8e7d6c", eventTime := 1700000000000
    eventType := "CHAOS_TERMINATION", groupName := "my-asg", groupType := "ASG"
    monkeyType := "CHAOS", region := "", message := "" }

/-- A remote answering every request with a 200 whose body decodes to
`c3Resp`. -/
def c3Remote : HTTPRequest → HTTPResponse APIResponse := fun _ =>
  { statusCode := 200, status := "200 OK", bodyAsError := some c3Resp
    bodyAsOut := some c3Resp }

/-- An instant half a second after the Unix epoch. -/
def c4T : GoTime := { sec := 0, nsec := 500000000 }

/-- A resolved configuration for the history claims. -/
def c4Cfg : Config :=
  { endpoint := "http://127.0.0.1:8080", region := "", username := "", password := ""
    userAgent := "chaosmonkey Go library", httpClient := some () }

/-- A SimpleDB service listing two single-name pages and reporting no
errors. -/
def c9Svc : Aws.SimpleDBService :=
  { pages := [["alpha"], ["beta"]], listErr := none, deleteErr := none }

namespace ChaosMonkey

/-! Frame and value lemmas for the six resolution steps of `NewClient`. -/

lemma stepEndpointDefault_endpoint (d c : Config) :
    (stepEndpointDefault d c).endpoint = if c.endpoint = "" then d.endpoint else c.endpoint := by
  simp only [stepEndpointDefault]; split_ifs <;> rfl

lemma stepEndpointScheme_endpoint (c : Config) :
    (stepEndpointScheme c).endpoint =
      if ¬ strHasPre c.endpoint "http" then "http://" ++ c.endpoint else c.endpoint := by
  simp only [stepEndpointScheme]; split_ifs <;> rfl

lemma stepUsername_endpoint (d c : Config) : (stepUsername d c).endpoint = c.endpoint := by
  simp only [stepUsername]; split_ifs <;> rfl

lemma stepPassword_endpoint (d c : Config) : (stepPassword d c).endpoint = c.endpoint := by
  simp only [stepPassword]; split_ifs <;> rfl

lemma stepUserAgent_endpoint (d c : Config) : (stepUserAgent d c).endpoint = c.endpoint := by
  simp only [stepUserAgent]; split_ifs <;> rfl

lemma stepHTTPClient_endpoint (d c : Config) : (stepHTTPClient d c).endpoint = c.endpoint := by
  simp only [stepHTTPClient]; split_ifs <;> rfl

lemma stepEndpointDefault_userAgent (d c : Config) :
    (stepEndpointDefault d c).userAgent = c.userAgent := by
  simp only [stepEndpointDefault]; split_ifs <;> rfl

lemma stepEndpointScheme_userAgent (c : Config) :
    (stepEndpointScheme c).userAgent = c.userAgent := by
  simp only [stepEndpointScheme]; split_ifs <;> rfl

lemma stepUsername_userAgent (d c : Config) : (stepUsername d c).userAgent = c.userAgent := by
  simp only [stepUsername]; split_ifs <;> rfl

lemma stepPassword_userAgent (d c : Config) : (stepPassword d c).userAgent = c.userAgent := by
  simp only [stepPassword]; split_ifs <;> rfl

lemma stepUserAgent_userAgent (d c : Config) :
    (stepUserAgent d c).userAgent = if c.userAgent = "" then d.userAgent else c.userAgent := by
  simp only [stepUserAgent]; split_ifs <;> rfl

lemma stepHTTPClient_userAgent (d c : Config) :
    (stepHTTPClient d c).userAgent = c.userAgent := by
  simp only [stepHTTPClient]; split_ifs <;> rfl

lemma stepEndpointDefault_httpClient (d c : Config) :
    (stepEndpointDefault d c).httpClient = c.httpClient := by
  simp only [stepEndpointDefault]; split_ifs <;> rfl

lemma stepEndpointScheme_httpClient (c : Config) :
    (stepEndpointScheme c).httpClient = c.httpClient := by
  simp only [stepEndpointScheme]; split_ifs <;> rfl

lemma stepUsername_httpClient (d c : Config) : (stepUsername d c).httpClient = c.httpClient := by
  simp only [stepUsername]; split_ifs <;> rfl

lemma stepPassword_httpClient (d c : Config) : (stepPassword d c).httpClient = c.httpClient := by
  simp only [stepPassword]; split_ifs <;> rfl

lemma stepUserAgent_httpClient (d c : Config) :
    (stepUserAgent d c).httpClient = c.httpClient := by
  simp only [stepUserAgent]; split_ifs <;> rfl

lemma stepHTTPClient_httpClient (d c : Config) :
    (stepHTTPClient d c).httpClient =
      if c.httpClient = none then d.httpClient else c.httpClient := by
  simp only [stepHTTPClient]; split_ifs <;> rfl

lemma DefaultConfig_userAgent (env : Env) :
    (DefaultConfig env).userAgent = "chaosmonkey Go library" := by
  simp only [DefaultConfig]; split_ifs <;> rfl

lemma DefaultConfig_httpClient (env : Env) : (DefaultConfig env).httpClient = some () := by
  simp only [DefaultConfig]; split_ifs <;> rfl

lemma DefaultConfig_endpoint (env : Env) :
    (DefaultConfig env).endpoint =
      if env.endpoint ≠ "" then env.endpoint else "http://127.0.0.1:8080" := by
  simp only [DefaultConfig]; split_ifs <;> rfl

lemma resolveConfig_endpoint (env : Env) (c : Config) :
    (resolveConfig env c).endpoint =
      (stepEndpointScheme (stepEndpointDefault (DefaultConfig env) c)).endpoint := by
  rw [resolveConfig]
  rw [stepHTTPClient_endpoint, stepUserAgent_endpoint, stepPassword_endpoint,
    stepUsername_endpoint]

lemma resolveConfig_userAgent (env : Env) (c : Config) :
    (resolveConfig env c).userAgent =
      if c.userAgent = "" then "chaosmonkey Go library" else c.userAgent := by
  rw [resolveConfig]
  rw [stepHTTPClient_userAgent, stepUserAgent_userAgent, DefaultConfig_userAgent,
    stepPassword_userAgent, stepUsername_userAgent, stepEndpointScheme_userAgent,
    stepEndpointDefault_userAgent]

/-! Facts about `strHasPre` (the embedding of `strings.HasPrefix`). -/

lemma listStarts_append (cs ds es : List Char) (h : listStarts cs (ds ++ es) = true) :
    listStarts cs ds = true := by
  induction ds generalizing cs with
  | nil => cases cs <;> rfl
  | cons d ds ih =>
    cases cs with
    | nil => simp [List.cons_append, listStarts] at h
    | cons c cs =>
      simp only [List.cons_append, listStarts, Bool.and_eq_true, decide_eq_true_eq] at h ⊢
      exact ⟨h.1, ih cs h.2⟩

lemma listStarts_cons_ne_nil (cs : List Char) (d : Char) (ds : List Char)
    (h : listStarts cs (d :: ds) = true) : cs ≠ [] := by
  cases cs with
  | nil => simp [listStarts] at h
  | cons c cs => exact List.cons_ne_nil c cs

lemma strHasPre_trans_https (s : String) (h : strHasPre s "https://" = true) :
    strHasPre s "http" = true := by
  have hsplit : "https://".data = "http".data ++ "s://".data := rfl
  unfold strHasPre at h ⊢
  rw [hsplit] at h
  exact listStarts_append _ _ _ h

lemma strHasPre_ne_empty (s p : String) (d : Char) (ds : List Char) (hp : p.data = d :: ds)
    (h : strHasPre s p = true) : s ≠ "" := by
  intro hs
  subst hs
  unfold strHasPre at h
  rw [hp] at h
  have hnil : ("" : String).data = [] := rfl
  rw [hnil] at h
  simp [listStarts] at h

lemma http_prepend_ne_empty (s : String) : ("http://" ++ s) ≠ "" := by
  intro h
  have h2 : ("http://" ++ s).data = ("" : String).data := congrArg String.data h
  rw [show ("http://" ++ s).data = 'h' :: ("ttp://".data ++ s.data) from rfl] at h2
  exact List.cons_ne_nil _ _ h2

lemma resolveConfig_httpClient (env : Env) (c : Config) :
    (resolveConfig env c).httpClient =
      if c.httpClient = none then some () else c.httpClient := by
  rw [resolveConfig]
  rw [stepHTTPClient_httpClient, DefaultConfig_httpClient, stepUserAgent_httpClient,
    stepPassword_httpClient, stepUsername_httpClient, stepEndpointScheme_httpClient,
    stepEndpointDefault_httpClient]

lemma resolveConfig_endpoint_ne_empty (env : Env) (c : Config) :
    (resolveConfig env c).endpoint ≠ "" := by
  rw [resolveConfig_endpoint, stepEndpointScheme_endpoint]
  split_ifs with h
  · exact strHasPre_ne_empty _ "http" 'h' "ttp".data rfl h
  · exact http_prepend_ne_empty _

end ChaosMonkey

namespace Aws

lemma foldl_flag_iff (name : String) (l : List String) (b : Bool) :
    l.foldl (fun acc n => if n = name then true else acc) b = true ↔
      (b = true ∨ name ∈ l) := by
  induction l generalizing b with
  | nil => simp
  | cons x xs ih =>
    simp only [List.foldl_cons]
    rw [ih]
    by_cases hx : x = name
    · subst hx
      simp [List.mem_cons]
    · rw [if_neg hx]
      constructor
      · rintro (hb | hmem)
        · exact Or.inl hb
        · exact Or.inr (List.mem_cons_of_mem x hmem)
      · rintro (hb | hmem)
        · exact Or.inl hb
        · rcases List.mem_cons.mp hmem with heq | hmem2
          · exact absurd heq.symm hx
          · exact Or.inr hmem2

lemma outer_foldl_iff (name : String) (pages : List (List String)) (b : Bool) :
    pages.foldl
        (fun acc page => page.foldl (fun acc n => if n = name then true else acc) acc)
        b = true ↔
      (b = true ∨ ∃ p ∈ pages, name ∈ p) := by
  induction pages generalizing b with
  | nil => simp
  | cons pg pgs ih =>
    simp only [List.foldl_cons]
    rw [ih, foldl_flag_iff]
    constructor
    · rintro ((hb | hmem) | ⟨p, hp, hname⟩)
      · exact Or.inl hb
      · exact Or.inr ⟨pg, List.mem_cons_self pg pgs, hmem⟩
      · exact Or.inr ⟨p, List.mem_cons_of_mem pg hp, hname⟩
    · rintro (hb | ⟨p, hp, hname⟩)
      · exact Or.inl (Or.inl hb)
      · rcases List.mem_cons.mp hp with heq | hp2
        · exact Or.inl (Or.inr (heq ▸ hname))
        · exact Or.inr ⟨p, hp2, hname⟩

lemma domainExistsIn_iff (pages : List (List String)) (name : String) :
    domainExistsIn pages name = true ↔ ∃ p ∈ pages, name ∈ p := by
  unfold domainExistsIn
  rw [outer_foldl_iff]
  simp

end Aws

/-! Claim theorems. -/

/-- C1, counterexample: the claim asks for `floor(T/1000)` even at negative,
non-multiple-of-1000 timestamps, but at `eventTime = -500` the code's
truncated division yields second `0` while `floor(-500/1000) = -1`. -/
theorem c1_counterexample :
    c1NegResp.eventTime = -500 ∧
    c1NegResp.toEvent.triggeredAtSec = 0 ∧
    specTriggeredAtSec c1NegResp.eventTime = -1 ∧
    c1NegResp.toEvent.triggeredAtSec ≠ specTriggeredAtSec c1NegResp.eventTime := by
  decide

/-- C1, amended: for every wire response with `eventTime = T`, the Event's
`TriggeredAt` is `T/1000` whole seconds since the Unix epoch with the
quotient truncated toward zero (Go `int64` division); for every
non-negative `T` — in particular every post-epoch wire timestamp — this
coincides with the claimed `floor(T/1000)`. -/
theorem c1_toEvent_timestamp (resp : APIResponse) :
    resp.toEvent.triggeredAtSec = Int.tdiv resp.eventTime 1000 ∧
    (0 ≤ resp.eventTime →
      resp.toEvent.triggeredAtSec = specTriggeredAtSec resp.eventTime) := by
  refine ⟨rfl, fun h => ?_⟩
  show Int.tdiv resp.eventTime 1000 = Int.fdiv resp.eventTime 1000
  obtain ⟨m, hm⟩ := Int.eq_ofNat_of_zero_le h
  rw [hm]
  cases m with
  | zero => rfl
  | succ n => rfl

/-- C1, witness: the amended theorem applied to a concrete response with
`eventTime = 1234567`. -/
theorem c1_witness :
    c1Resp.toEvent.triggeredAtSec = specTriggeredAtSec c1Resp.eventTime :=
  (c1_toEvent_timestamp c1Resp).2 (by decide)

/-- C5, counterexample: the claim requires every resolved field except the
credentials to be non-empty, naming the region among them; but `NewClient`
never defaults `Region`, so from an empty caller configuration and an empty
environment the construction succeeds with an empty resolved region. -/
theorem c5_counterexample :
    (NewClient ⟨"", "", ""⟩ (fun _ => emptyConfig) 0).2.2 = none ∧
    ((NewClient ⟨"", "", ""⟩ (fun _ => emptyConfig) 0).1 0).region = "" := by
  decide

/-- C5, amended: for every caller-supplied configuration, `NewClient` never
fails (it always returns a nil error), and the resolved configuration has a
non-empty endpoint, user-agent, and transport handle; the region — like the
username/password credentials — is permitted to remain empty. -/
theorem c5_newClient_resolution (env : Env) (h : Heap) (p : Nat) :
    (NewClient env h p).2.2 = none ∧
    ((NewClient env h p).1 p).endpoint ≠ "" ∧
    ((NewClient env h p).1 p).userAgent ≠ "" ∧
    ((NewClient env h p).1 p).httpClient ≠ none := by
  have hp : (NewClient env h p).1 p = resolveConfig env (h p) := by
    simp [NewClient]
  refine ⟨rfl, ?_, ?_, ?_⟩
  · rw [hp]
    exact resolveConfig_endpoint_ne_empty env (h p)
  · rw [hp, resolveConfig_userAgent]
    split_ifs with h1
    · decide
    · exact h1
  · rw [hp, resolveConfig_httpClient]
    split_ifs with h1
    · simp
    · exact h1

/-- C6: during resolution, an (already defaulted) endpoint that does not
start with the token `http` is prefixed with `http://`; an endpoint already
starting with `https://` is left unmodified; and with no caller endpoint and
environment variable `CHAOSMONKEY_ENDPOINT=foo.example.com:9090` the
resolved endpoint is `http://foo.example.com:9090`. -/
theorem c6_endpoint_normalization (env : Env) (c : Config) :
    (¬ strHasPre (stepEndpointDefault (DefaultConfig env) c).endpoint "http" = true →
      (resolveConfig env c).endpoint =
        "http://" ++ (stepEndpointDefault (DefaultConfig env) c).endpoint) ∧
    (strHasPre c.endpoint "https://" = true →
      (resolveConfig env c).endpoint = c.endpoint) ∧
    (resolveConfig ⟨"foo.example.com:9090", "", ""⟩ emptyConfig).endpoint
      = "http://foo.example.com:9090" := by
  refine ⟨fun h => ?_, fun h => ?_, by decide⟩
  · rw [resolveConfig_endpoint, stepEndpointScheme_endpoint, if_pos h]
  · have hne : c.endpoint ≠ "" := strHasPre_ne_empty c.endpoint "https://" 'h' "ttps://".data rfl h
    have hhttp : strHasPre c.endpoint "http" = true := strHasPre_trans_https c.endpoint h
    rw [resolveConfig_endpoint, stepEndpointScheme_endpoint, stepEndpointDefault_endpoint,
      if_neg hne, if_neg (fun hn => hn hhttp)]

/-- C6, witness: the theorem applied to a caller endpoint already carrying
the `https://` scheme, which resolution leaves unmodified. -/
theorem c6_witness :
    (resolveConfig ⟨"", "", ""⟩ c6Cfg).endpoint = "https://secure.example.com:8443" :=
  (c6_endpoint_normalization ⟨"", "", ""⟩ c6Cfg).2.1 (by decide)

/-- C7: the request `sendRequest` assembles (its construction phase is
`buildRequest`) carries the Basic-Auth header exactly when both username and
password are non-empty — no header when either is empty — and always carries
the configured User-Agent header. -/
theorem c7_auth_and_user_agent (cfg : Config) (method url : String) (body : Option APIRequest) :
    (cfg.username ≠ "" ∧ cfg.password ≠ "" →
      (buildRequest cfg method url body).basicAuth = some (cfg.username, cfg.password)) ∧
    (cfg.username = "" ∨ cfg.password = "" →
      (buildRequest cfg method url body).basicAuth = none) ∧
    (buildRequest cfg method url body).userAgent = cfg.userAgent := by
  refine ⟨fun h => ?_, fun h => ?_, rfl⟩
  · simp [buildRequest, h]
  · have hno : ¬ (cfg.username ≠ "" ∧ cfg.password ≠ "") := by
      rcases h with h | h <;> simp [h]
    simp [buildRequest, hno]

/-- C7, witness: the theorem applied to a configuration with both
credentials set. -/
theorem c7_witness :
    (buildRequest c7Cfg "GET" "http://h/x" none).basicAuth = some ("alice", "hunter2") :=
  (c7_auth_and_user_agent c7Cfg "GET" "http://h/x" none).1 (by decide)

/-- C10: `NewClient` resolves the defaults by mutating the caller's `Config`
object in place — the heap cell at the caller's pointer now holds the
resolved configuration, every other cell is untouched — and the returned
`Client` retains that same pointer rather than a private copy. -/
theorem c10_newClient_in_place (env : Env) (h : Heap) (p : Nat) :
    ((NewClient env h p).2.1).config = p ∧
    (NewClient env h p).1 p = resolveConfig env (h p) ∧
    (∀ q : Nat, q ≠ p → (NewClient env h p).1 q = h q) := by
  refine ⟨rfl, by simp [NewClient], fun q hq => by simp [NewClient, hq]⟩

/-- C10, witness: the theorem applied to a concrete heap; the object at
address 1 is untouched when the client is built from the object at 0. -/
theorem c10_witness :
    (NewClient ⟨"", "", ""⟩ c10Heap 0).1 1 = c10Heap 1 :=
  (c10_newClient_in_place ⟨"", "", ""⟩ c10Heap 0).2.2 1 (by decide)

/-- C2: on every non-200 response, `sendRequest` fails; when the body decodes
as the wire-response shape with a non-empty message, the error text is
exactly that message; otherwise (no decode, or an empty message) the error
carries `"HTTP error: "` followed by the raw HTTP status line. -/
theorem c2_sendRequest_error_classification {α : Type} (cfg : Config) (method url : String)
    (body : Option APIRequest) (remote : HTTPRequest → HTTPResponse α)
    (hstatus : (remote (buildRequest cfg method url body)).statusCode ≠ 200) :
    (∃ e, sendRequest cfg method url body remote = .error e) ∧
    (∀ r : APIResponse,
      (remote (buildRequest cfg method url body)).bodyAsError = some r → r.message ≠ "" →
      sendRequest cfg method url body remote = .error r.message) ∧
    ((remote (buildRequest cfg method url body)).bodyAsError = none →
      sendRequest cfg method url body remote =
        .error ("HTTP error: " ++ (remote (buildRequest cfg method url body)).status)) ∧
    (∀ r : APIResponse,
      (remote (buildRequest cfg method url body)).bodyAsError = some r → r.message = "" →
      sendRequest cfg method url body remote =
        .error ("HTTP error: " ++ (remote (buildRequest cfg method url body)).status)) := by
  have hsr : sendRequest cfg method url body remote =
      .error (decodeError (remote (buildRequest cfg method url body))) := by
    unfold sendRequest
    rw [if_pos hstatus]
  refine ⟨⟨_, hsr⟩, fun r hr hmsg => ?_, fun hn => ?_, fun r hr hmsg => ?_⟩
  · rw [hsr]
    simp only [decodeError, hr]
    rw [if_pos hmsg]
  · rw [hsr]
    simp only [decodeError, hn]
  · rw [hsr]
    simp only [decodeError, hr]
    rw [if_neg (fun hne => hne hmsg)]

/-- C2, witness: the theorem applied to a 403 response whose body carries the
message `boom`. -/
theorem c2_witness :
    sendRequest c2Cfg "POST" "http://127.0.0.1:8080/x" none c2Remote = .error "boom" :=
  (c2_sendRequest_error_classification c2Cfg "POST" "http://127.0.0.1:8080/x" none c2Remote
    (by decide)).2.1 c2ErrResp rfl (by decide)

/-- C3, counterexample: the claim requires the returned Event's strategy to
equal the requested strategy; but `ToEvent` copies the response's
`chaosType`, so a server echoing `BurnCpu` to a `ShutdownInstance` request
yields an Event whose strategy is `BurnCpu`. -/
theorem c3_counterexample :
    TriggerEvent c3Cfg c3Remote "my-asg" "ShutdownInstance" = .ok c3Resp.toEvent ∧
    c3Resp.toEvent.strategy = "BurnCpu" ∧
    ("BurnCpu" : String) ≠ "ShutdownInstance" := by
  refine ⟨rfl, rfl, by decide⟩

/-- C3, amended: `TriggerEvent(g, s)` sends a request whose body has
`groupName = g`, `groupType = "ASG"`, `eventType = "CHAOS_TERMINATION"` and
`chaosType = s`; on success it returns the Event derived from the decoded
response, whose InstanceID equals the response's `eventId` and whose
Strategy equals the response's `chaosType` (the requested strategy only when
the server echoes it back). -/
theorem c3_triggerEvent_request_and_success (cfg : Config)
    (remote : HTTPRequest → HTTPResponse APIResponse) (group strategy : String) :
    (triggerRequestBody cfg group strategy).groupName = group ∧
    (triggerRequestBody cfg group strategy).groupType = "ASG" ∧
    (triggerRequestBody cfg group strategy).eventType = "CHAOS_TERMINATION" ∧
    (triggerRequestBody cfg group strategy).chaosType = strategy ∧
    (∀ r : APIResponse,
      sendRequest cfg "POST" (cfg.endpoint ++ APIPath)
          (some (triggerRequestBody cfg group strategy)) remote = .ok r →
      TriggerEvent cfg remote group strategy = .ok r.toEvent ∧
      r.toEvent.instanceID = r.eventID ∧
      r.toEvent.strategy = r.chaosType) := by
  refine ⟨rfl, rfl, rfl, rfl, fun r hr => ⟨?_, rfl, rfl⟩⟩
  unfold TriggerEvent
  rw [hr]

/-- C3, witness: the amended theorem applied to a concrete 200 exchange. -/
theorem c3_witness :
    TriggerEvent c3Cfg c3Remote "g2" "NullRoute" = .ok c3Resp.toEvent :=
  ((c3_triggerEvent_request_and_success c3Cfg c3Remote "g2" "NullRoute").2.2.2.2
    c3Resp rfl).1

/-- C4, counterexample: at half a second past the epoch the claim demands a
`since` value of 500 milliseconds, but `EventsSince` computes
`t.Unix() * 1000 = 0`, so the issued URL differs from the claimed one. -/
theorem c4_counterexample :
    specTimeToUnixMillis c4T = 500 ∧
    c4T.unix * 1000 = 0 ∧
    (eventsRequest c4Cfg (c4T.unix * 1000)).url =
      "http://127.0.0.1:8080/simianarmy/api/v1/chaos?since=0" ∧
    (eventsRequest c4Cfg (c4T.unix * 1000)).url ≠
      c4Cfg.endpoint ++ APIPath ++ "?since=" ++ toString (specTimeToUnixMillis c4T) := by
  decide

/-- C4, amended: `EventsSince(t)` issues a GET whose `since` query parameter
equals `t` truncated to whole seconds (`t.Unix()`) times 1000 — `t` in
milliseconds with the sub-second part discarded; for instants with a zero
sub-second component this equals `t` converted to milliseconds since the
Unix epoch. -/
theorem c4_eventsSince_param (cfg : Config)
    (remote : HTTPRequest → HTTPResponse (List APIResponse)) (t : GoTime) :
    EventsSince cfg remote t = events cfg remote (t.sec * 1000) ∧
    (eventsRequest cfg (t.sec * 1000)).url =
      cfg.endpoint ++ APIPath ++ "?since=" ++ toString (t.sec * 1000) ∧
    (t.nsec = 0 → t.sec * 1000 = specTimeToUnixMillis t) := by
  refine ⟨rfl, rfl, fun h => ?_⟩
  unfold specTimeToUnixMillis
  rw [h]
  simp

/-- C4, witness: the amended theorem applied to a whole-second instant, where
the parameter does equal the instant in milliseconds. -/
theorem c4_witness :
    (7 : Int) * 1000 = specTimeToUnixMillis { sec := 7, nsec := 0 } :=
  (c4_eventsSince_param c4Cfg (fun _ =>
      { statusCode := 200, status := "200 OK", bodyAsError := none, bodyAsOut := some [] })
    { sec := 7, nsec := 0 }).2.2 rfl

/-- C8: `Events()` equals `EventsSince` at the Unix epoch start, and the
history request it issues carries `since=0`. -/
theorem c8_events_full_history (cfg : Config)
    (remote : HTTPRequest → HTTPResponse (List APIResponse)) :
    Events cfg remote = EventsSince cfg remote { sec := 0, nsec := 0 } ∧
    (eventsRequest cfg 0).url = cfg.endpoint ++ APIPath ++ "?since=0" := by
  constructor
  · unfold Events EventsSince
    simp [GoTime.unix]
  · show cfg.endpoint ++ APIPath ++ "?since=" ++ toString (0 : Int) =
      cfg.endpoint ++ APIPath ++ "?since=0"
    apply String.ext
    simp only [String.data_append, List.append_assoc]
    rfl

/-- C9: with a successful listing, the domain-exists flag means exactly that
some page lists the name; when no page lists it, `DeleteSimpleDBDomain`
returns the descriptive "does not exist" error and never issues the delete
call; and whenever the delete call is issued, the listing (issued first)
confirmed the domain exists. -/
theorem c9_delete_requires_existence (svc : Aws.SimpleDBService) (name : String)
    (hok : svc.listErr = none) :
    (Aws.domainExistsIn svc.pages name = true ↔ ∃ p ∈ svc.pages, name ∈ p) ∧
    ((∀ p ∈ svc.pages, name ∉ p) →
      (Aws.DeleteSimpleDBDomain svc name).1 =
        .error ("SimpleDB domain \"" ++ name ++ "\" does not exist") ∧
      Aws.SDBCall.deleteDomain name ∉ (Aws.DeleteSimpleDBDomain svc name).2) ∧
    (Aws.SDBCall.deleteDomain name ∈ (Aws.DeleteSimpleDBDomain svc name).2 →
      (∃ p ∈ svc.pages, name ∈ p) ∧
      (Aws.DeleteSimpleDBDomain svc name).2 =
        [Aws.SDBCall.listDomains, Aws.SDBCall.deleteDomain name]) := by
  have hbody : Aws.DeleteSimpleDBDomain svc name =
      (if ¬ Aws.domainExistsIn svc.pages name then
        (.error ("SimpleDB domain \"" ++ name ++ "\" does not exist"),
          [Aws.SDBCall.listDomains])
      else match svc.deleteErr with
        | some e => (.error e, [Aws.SDBCall.listDomains, Aws.SDBCall.deleteDomain name])
        | none => (.ok (), [Aws.SDBCall.listDomains, Aws.SDBCall.deleteDomain name])) := by
    unfold Aws.DeleteSimpleDBDomain
    rw [hok]
  refine ⟨Aws.domainExistsIn_iff svc.pages name, fun hnone => ?_, fun hmem => ?_⟩
  · have hfalse : Aws.domainExistsIn svc.pages name = false := by
      cases hD : Aws.domainExistsIn svc.pages name
      · rfl
      · exfalso
        obtain ⟨p, hp, hnp⟩ := (Aws.domainExistsIn_iff svc.pages name).mp hD
        exact hnone p hp hnp
    rw [hbody, if_pos (by simp [hfalse])]
    exact ⟨rfl, by simp⟩
  · cases hD : Aws.domainExistsIn svc.pages name
    · exfalso
      rw [hbody, if_pos (by simp [hD])] at hmem
      simp at hmem
    · refine ⟨(Aws.domainExistsIn_iff svc.pages name).mp hD, ?_⟩
      rw [hbody, if_neg (by simp [hD])]
      cases svc.deleteErr <;> rfl

/-- C9, witness: the theorem applied to a service listing `alpha` and `beta`
when deletion of the absent domain `gamma` is requested. -/
theorem c9_witness :
    (Aws.DeleteSimpleDBDomain c9Svc "gamma").1 =
      .error ("SimpleDB domain \"gamma\" does not exist") :=
  ((c9_delete_requires_existence c9Svc "gamma" rfl).2.1 (by decide)).1
